import Mathlib

/-! # Verification of the senfiBot conversation-thread routing engine

Shallow embedding of the routing engine of the `aryatrb/senfiBot`
repository: the Thread Store (`src/database.py`), the rate limiter, the
reply resolver and the message handlers (`src/enhanced_bot.py`), together
with proofs settling the testable properties of the specification.

Rows of the SQLite tables are modelled as Lean structures, each table as a
list of rows in insertion (rowid) order; AUTOINCREMENT row ids are modelled
by explicit `next…Id` counters.  `CURRENT_TIMESTAMP` is a logical clock.
Python's `None` becomes `Option`, and SQLite/Python quirks that the claims
hinge on (`cursor.lastrowid` after an UPDATE-only cursor, Python falsiness
of `None` and `0`) are modelled explicitly where they occur.
-/

namespace SenfiBot

/-- A row of the `threads` table
(`database.py`, `init_database`: thread_id, user_id, role_id, is_active,
last_activity; created_at is irrelevant to the claims and omitted). -/
structure ThreadRow where
  threadId : Nat
  userId : Nat
  roleId : Nat
  isActive : Bool
  lastActivity : Nat
deriving Repr, DecidableEq

/-- A row of the `messages` table
(`database.py`: message_id, thread_id, telegram_message_id, sender_type,
message_text; sent_at/is_read are irrelevant to the claims and omitted;
message order used by the code is `ORDER BY message_id`). -/
structure MessageRow where
  messageId : Nat
  threadId : Nat
  telegramMessageId : Nat
  senderType : String
  messageText : String
deriving Repr, DecidableEq

/-- A row of the `message_mappings` table (`database.py`):
telegram_message_id is the PRIMARY KEY. -/
structure MappingRow where
  telegramMessageId : Nat
  threadId : Nat
deriving Repr, DecidableEq

/-- A row of the `blocks` table (`database.py`):
UNIQUE(admin_user_id, blocked_user_id). -/
structure BlockRow where
  adminUserId : Nat
  blockedUserId : Nat
  reason : Option String
deriving Repr, DecidableEq

/-- A row of the `roles` table (`database.py`): role_id, role_name and the
external user id of the responder occupying the role. -/
structure RoleRow where
  roleId : Nat
  roleName : String
  adminUserId : Nat
deriving Repr, DecidableEq

/-- The relational state of the Thread Store: one list per table, in rowid
order, plus the AUTOINCREMENT counters and a logical clock standing for
`CURRENT_TIMESTAMP`. -/
structure Db where
  threads : List ThreadRow
  messages : List MessageRow
  mappings : List MappingRow
  blocks : List BlockRow
  roles : List RoleRow
  nextThreadId : Nat
  nextMessageId : Nat
  clock : Nat
deriving Repr, DecidableEq

/-- The empty database (fresh `init_database`, ids starting at 1 as SQLite
AUTOINCREMENT does). -/
def Db.empty : Db :=
  { threads := [], messages := [], mappings := [], blocks := [], roles := []
    nextThreadId := 1, nextMessageId := 1, clock := 0 }

/-- The `Database.create_thread(user_id, role_id)` (`database.py` lines
195-227).  The function opens a fresh connection/cursor, SELECTs an
existing row for the pair, and

* if one exists, UPDATEs it to `is_active = 1` bumping `last_activity`;
* otherwise INSERTs a new row;

and then — on both branches, since the final `thread_id = cursor.lastrowid`
sits outside the `else` — returns `cursor.lastrowid`.  `lastrowid` is set
only by an INSERT on that cursor, and its initial value on the fresh cursor
is `None`; so the reactivation branch returns `None` (here `none`) while
the insertion branch returns the new rowid. -/
def Db.create_thread (db : Db) (userId roleId : Nat) : Db × Option Nat :=
  match db.threads.find? (fun t => t.userId == userId && t.roleId == roleId) with
  | some t =>
      ({ db with
          threads := db.threads.map (fun r =>
            if r.threadId == t.threadId then
              { r with isActive := true, lastActivity := db.clock }
            else r) },
       none)
  | none =>
      let tid := db.nextThreadId
      ({ db with
          threads := db.threads ++ [⟨tid, userId, roleId, true, db.clock⟩],
          nextThreadId := tid + 1 },
       some tid)

/-- The `Database.add_message(thread_id, telegram_message_id, sender_type,
message_text)` (`database.py` lines 229-246): INSERT the message row and
bump the owning thread's `last_activity`. -/
def Db.add_message (db : Db) (threadId telegramMessageId : Nat)
    (senderType messageText : String) : Db :=
  let mid := db.nextMessageId
  { db with
      messages := db.messages ++ [⟨mid, threadId, telegramMessageId, senderType, messageText⟩],
      nextMessageId := mid + 1,
      threads := db.threads.map (fun r =>
        if r.threadId == threadId then { r with lastActivity := db.clock } else r) }

/-- The `Database.block_user(admin_user_id, blocked_user_id, reason)`
(`database.py` lines 330-341): `INSERT OR REPLACE` into `blocks`, which is
UNIQUE on (admin_user_id, blocked_user_id). -/
def Db.block_user (db : Db) (adminUserId blockedUserId : Nat)
    (reason : Option String) : Db :=
  { db with
      blocks :=
        db.blocks.filter
          (fun b => !(b.adminUserId == adminUserId && b.blockedUserId == blockedUserId))
        ++ [⟨adminUserId, blockedUserId, reason⟩] }

/-- The `Database.unblock_user(admin_user_id, blocked_user_id)`
(`database.py` lines 343-354): DELETE the matching rows. -/
def Db.unblock_user (db : Db) (adminUserId blockedUserId : Nat) : Db :=
  { db with
      blocks :=
        db.blocks.filter
          (fun b => !(b.adminUserId == adminUserId && b.blockedUserId == blockedUserId)) }

/-- The `Database.is_user_blocked(admin_user_id, user_id)` (`database.py` lines
356-369): `COUNT(*) > 0` over the matching rows. -/
def Db.is_user_blocked (db : Db) (adminUserId userId : Nat) : Bool :=
  db.blocks.any (fun b => b.adminUserId == adminUserId && b.blockedUserId == userId)

/-- The `INSERT OR REPLACE INTO message_mappings` statement executed by
`save_message_mapping` (`enhanced_bot.py` lines 1460-1463);
`telegram_message_id` is the table's primary key, so an existing row for
the same id is replaced. -/
def Db.insertMapping (db : Db) (telegramMessageId threadId : Nat) : Db :=
  { db with
      mappings :=
        db.mappings.filter (fun m => !(m.telegramMessageId == telegramMessageId))
        ++ [⟨telegramMessageId, threadId⟩] }

/-! ## Rate limiter (`enhanced_bot.py` lines 1407-1433 and 1469-1481)

Per-user in-memory state: `self.user_message_counts[user_id]` is a dict
from timestamp (a float, keyed by its string form; modelled as `ℚ`) to a
count, and `self.user_last_message[user_id]` is the time of the last
accepted message.  `Config.MAX_MESSAGES_PER_10_MINUTES = 5`
(`config.py` line 28). -/

/-- The `Config.MAX_MESSAGES_PER_10_MINUTES` (`config.py`). -/
def maxMessagesPer10Minutes : Nat := 5

/-- One user's slice of the rate-limiter dictionaries. -/
structure RLState where
  counts : List (ℚ × Nat)
  last : Option ℚ
deriving Repr, DecidableEq

/-- The pruning comprehension of `check_rate_limit`: keep entries whose
timestamp satisfies `float(timestamp) > now.timestamp() - 600`. -/
def pruneCounts (now : ℚ) (c : List (ℚ × Nat)) : List (ℚ × Nat) :=
  c.filter (fun p => now - 600 < p.1)

/-- The `check_rate_limit(user_id)` (`enhanced_bot.py` lines 1407-1433):
prune entries older than 600 s (the pruned dict is stored back), count the
remaining messages and reject at `>= MAX_MESSAGES_PER_10_MINUTES`; then
reject if the previous accepted message is strictly less than 10 s old.
Returns the stored-back state together with the admission decision. -/
def check_rate_limit (now : ℚ) (s : RLState) : RLState × Bool :=
  let c := pruneCounts now s.counts
  let s' : RLState := { s with counts := c }
  let recent := (c.map Prod.snd).sum
  if maxMessagesPer10Minutes ≤ recent then
    (s', false)
  else
    match s.last with
    | some t => if now - t < 10 then (s', false) else (s', true)
    | none => (s', true)

/-- The `update_rate_limit(user_id)` (`enhanced_bot.py` lines 1469-1481):
increment the count under the key `str(now.timestamp())` (creating it at 0
first) and record `now` as the last-message time.  No pruning happens
here. -/
def update_rate_limit (now : ℚ) (s : RLState) : RLState :=
  let c :=
    if s.counts.any (fun p => p.1 == now) then
      s.counts.map (fun p => if p.1 == now then (p.1, p.2 + 1) else p)
    else
      s.counts ++ [(now, 1)]
  { counts := c, last := some now }

/-! ## Reply resolver (`enhanced_bot.py` lines 711-779)

`handle_admin_reply` first consults the in-memory
`self.message_thread_map`; on a Python-falsy result it opens the database
and runs five queries in sequence, stopping at the first row, and on a hit
backfills the in-memory map. -/

/-- The in-memory `self.message_thread_map`: an association from telegram
message id to thread id (a Python dict; insertion replaces). -/
abbrev MsgMap := List (Nat × Nat)

/-- The `dict.get` on the message-thread map. -/
def MsgMap.get (m : MsgMap) (k : Nat) : Option Nat :=
  (List.find? (fun p => p.1 == k) m).map Prod.snd

/-- The `map[k] = v` on a Python dict: replace an existing binding or append. -/
def MsgMap.set (m : MsgMap) (k v : Nat) : MsgMap :=
  if (List.any m (fun p => p.1 == k)) then
    List.map (fun p => if p.1 == k then (k, v) else p) m
  else
    m ++ [(k, v)]

/-- Python truthiness of an optional thread id: `if not thread_id:` treats
both `None` and `0` as a miss. -/
def pyTruthy : Option Nat → Option Nat
  | some (n + 1) => some (n + 1)
  | _ => none

/-- Resolver tier 2 (`enhanced_bot.py` lines 722-726):
`SELECT thread_id FROM message_mappings WHERE telegram_message_id = ?`,
first row. -/
def tierMappingTable (db : Db) (e : Nat) : Option Nat :=
  (db.mappings.find? (fun m => m.telegramMessageId == e)).map (·.threadId)

/-- Resolver tier 3 (`enhanced_bot.py` lines 729-734):
`SELECT thread_id FROM messages WHERE telegram_message_id = ? AND
sender_type = 'admin'`, first row. -/
def tierAdminMessages (db : Db) (e : Nat) : Option Nat :=
  (db.messages.find?
      (fun m => m.telegramMessageId == e && m.senderType == "admin")).map (·.threadId)

/-- Resolver tier 4 (`enhanced_bot.py` lines 737-742): same query with
`sender_type = 'user'`. -/
def tierUserMessages (db : Db) (e : Nat) : Option Nat :=
  (db.messages.find?
      (fun m => m.telegramMessageId == e && m.senderType == "user")).map (·.threadId)

/-- Contiguous-subsequence test on character lists, used to model SQL
`LIKE '%pat%'`. -/
def containsSeq (pat : List Char) : List Char → Bool
  | [] => pat.isEmpty
  | c :: rest => pat.isPrefixOf (c :: rest) || containsSeq pat rest

/-- The `LIKE '%Thread #<id>%'` pattern of resolver tier 5, as substring
containment (the texts the bot itself writes use this exact casing). -/
def containsMarker (text : String) (e : Nat) : Bool :=
  containsSeq ("Thread #" ++ toString e).data text.data

/-- One accumulator step of `ORDER BY message_id DESC LIMIT 1`: keep the
row with the greater `message_id` (the earlier row on ties). -/
def maxStep (acc : Option MessageRow) (m : MessageRow) : Option MessageRow :=
  match acc with
  | none => some m
  | some a => if a.messageId < m.messageId then some m else some a

/-- The `ORDER BY message_id DESC LIMIT 1` over a list of message rows: the
row with the greatest `message_id` (first such row on ties; message ids
are unique in any state the code produces). -/
def maxByMessageId (l : List MessageRow) : Option MessageRow :=
  l.foldl maxStep none

/-- Resolver tier 5 (`enhanced_bot.py` lines 745-751):
`SELECT thread_id FROM messages WHERE sender_type = 'admin' AND
message_text LIKE '%Thread #<E>%' ORDER BY message_id DESC LIMIT 1`. -/
def tierPattern (db : Db) (e : Nat) : Option Nat :=
  (maxByMessageId
      (db.messages.filter
        (fun m => m.senderType == "admin" && containsMarker m.messageText e))).map
    (·.threadId)

/-- Insertion into a list kept sorted by decreasing `message_id`. -/
def insertByIdDesc (m : MessageRow) : List MessageRow → List MessageRow
  | [] => [m]
  | a :: rest =>
      if a.messageId ≤ m.messageId then m :: a :: rest
      else a :: insertByIdDesc m rest

/-- Sort message rows by decreasing `message_id` (the `ORDER BY message_id
DESC` of tier 6's inner query). -/
def sortByIdDesc (l : List MessageRow) : List MessageRow :=
  l.foldr insertByIdDesc []

/-- The inner filter of tier 6's query: the rows of `messages` whose
`thread_id` lies in user `u`'s threads
(`WHERE thread_id IN (SELECT thread_id FROM threads WHERE user_id = ?)`). -/
def userMessages (db : Db) (u : Nat) : List MessageRow :=
  let userThreadIds := (db.threads.filter (fun t => t.userId == u)).map (·.threadId)
  db.messages.filter (fun m => userThreadIds.contains m.threadId)

/-- Resolver tier 6, the last resort (`enhanced_bot.py` lines 754-766):
the thread id of the `ORDER BY message_id DESC LIMIT 1` row among messages
whose `telegram_message_id` occurs in the last five messages (by
message_id) of the replying user's threads. -/
def tierRecent (db : Db) (u : Nat) : Option Nat :=
  (maxByMessageId
      (db.messages.filter (fun m =>
        (((sortByIdDesc (userMessages db u)).take 5).map
          (·.telegramMessageId)).contains m.telegramMessageId))).map
    (·.threadId)

/-- The resolution portion of `handle_admin_reply` (`enhanced_bot.py` lines
711-779): in-memory map first (`if not thread_id:` — Python falsiness),
then the five database queries in their source order, each tried only when
every earlier one produced no row; a database hit is written back into the
in-memory map (line 773) before the resolver is done.  Returns the
resolved thread id (or `none` when every tier missed) and the possibly
backfilled map. -/
def resolveThread (mem : MsgMap) (db : Db) (u e : Nat) : Option Nat × MsgMap :=
  match pyTruthy (mem.get e) with
  | some t => (some t, mem)
  | none =>
    match tierMappingTable db e with
    | some t => (some t, mem.set e t)
    | none =>
      match tierAdminMessages db e with
      | some t => (some t, mem.set e t)
      | none =>
        match tierUserMessages db e with
        | some t => (some t, mem.set e t)
        | none =>
          match tierPattern db e with
          | some t => (some t, mem.set e t)
          | none =>
            match tierRecent db u with
            | some t => (some t, mem.set e t)
            | none => (none, mem)

/-- The ordered list of the six sources the resolver consults for external
id `e` from user `u`, in source order. -/
def resolverChain (mem : MsgMap) (db : Db) (u e : Nat) : List (Option Nat) :=
  [pyTruthy (mem.get e), tierMappingTable db e, tierAdminMessages db e,
   tierUserMessages db e, tierPattern db e, tierRecent db u]

/-- First hit of an ordered list of optional results. -/
def firstHit : List (Option Nat) → Option Nat
  | [] => none
  | o :: rest =>
    match o with
    | some t => some t
    | none => firstHit rest

/-! ## The router's handlers (`enhanced_bot.py`)

Outbound sends are recorded as effects; payload templates (the long
Persian/Markdown message bodies, keyboards, reply-link targets) are
abstracted to the distinguishing constructor plus the routing-relevant
fields, since the claims speak about which sends happen, not their full
text.  A transport outcome for the single forwarding send of each handler
is supplied as a parameter: `sendOk = false` stands for
`context.bot.send_message` raising, which the code catches. -/

/-- The user-visible and outbound messages each handler can emit, in the
order the code emits them.  Distinct constructors correspond to distinct
message templates in the source. -/
inductive Effect where
  /-- `handle_message`: "please pick a responder first" (lines 445-449). -/
  | replyNoState
  /-- `handle_message`: rate-limit rejection (lines 455-459). -/
  | replyRateLimited
  /-- `handle_message`: the back-navigation button flow (lines 474-518). -/
  | backNav
  /-- `handle_message`: the home-navigation button flow (lines 520-530). -/
  | homeNav
  /-- `send_to_channel` logging (lines 593 and 955). -/
  | channelLog
  /-- `handle_message`: the forwarded copy sent to the responder (line 596). -/
  | forwardToAdmin (adminUserId telegramMessageId : Nat)
  /-- `handle_message`: blocked-sender rejection, lines 548-554
  ("you have been blocked by this responder"). -/
  | blockedByRoleNotice
  /-- `handle_message`: delivery confirmation (lines 625-632). -/
  | confirmSent (threadId : Nat)
  /-- `handle_message`: generic transport-failure notice (lines 640-643). -/
  | sendErrorGeneric
  /-- `handle_admin_reply`: "original message not found" (line 778). -/
  | replyNotFound
  /-- `handle_admin_reply`: the responder tried to reply to a user they
  blocked (line 821). -/
  | adminBlockedThisUser
  /-- `handle_admin_reply`: the replying user is blocked by the responder
  (line 861). -/
  | blockedByThisAdmin
  /-- `handle_admin_reply`: `/block` confirmation (line 829). -/
  | blockDone
  /-- `handle_admin_reply`: `/unblock` confirmation (line 835). -/
  | unblockDone
  /-- `handle_admin_reply`: the forwarded reply (lines 966-1027). -/
  | forwardReply (targetUserId telegramMessageId : Nat)
  /-- `handle_admin_reply`: delivery confirmation (lines 1038-1040). -/
  | confirmReplySent (threadId : Nat)
  /-- `handle_admin_reply`: transport-failure notice (lines 1045-1047). -/
  | replySendError
deriving Repr, DecidableEq

/-- The slice of `self.user_states[user_id]` that `handle_message` reads:
the selected role (`role_id` and the role's responder `user_id`) and the
cached thread id. -/
structure UserState where
  roleId : Nat
  roleAdminUserId : Nat
  threadId : Option Nat
deriving Repr, DecidableEq

/-- The two reserved reply-keyboard texts of `handle_message`
(lines 474 and 520). -/
def backButtonText : String := "🔙 بازگشت"

/-- See `backButtonText`. -/
def homeButtonText : String := "🏠 منوی اصلی"

/-- The text stored for the forwarded admin copy
(`enhanced_bot.py` line 611): `"پیام کاربر (Thread #<id>): <text>"`. -/
def adminCopyText (threadId : Nat) (text : String) : String :=
  "پیام کاربر (Thread #" ++ toString threadId ++ "): " ++ text

/-- Lines 464-469 of `handle_message`: take the cached thread id from the
user state; `if not thread_id:` (Python falsiness) call `create_thread`
and cache its result. -/
def ensureThread (db : Db) (st : UserState) (userId : Nat) : Db × UserState :=
  match pyTruthy st.threadId with
  | some t => (db, { st with threadId := some t })
  | none =>
      let (db', tid) := db.create_thread userId st.roleId
      (db', { st with threadId := tid })

/-- The complete outcome of one `handle_message` invocation. -/
structure HMResult where
  db : Db
  mem : MsgMap
  rl : RLState
  state : Option UserState
  effects : List Effect
deriving Repr, DecidableEq

/-- The `handle_message` (`enhanced_bot.py` lines 439-645), for one user:

1. no conversation state → ask to pick a responder and stop;
2. `check_rate_limit` (the pruned counts are stored back) → on rejection a
   rate-limit notice and stop;
3. ensure a thread exists (lines 466-469 — before the reserved-button
   dispatch);
4. the two reserved keyboard texts short-circuit into navigation;
5. persist the inbound text as a `sender_type='user'` row (line 533);
   a Python-`None` thread id here makes the INSERT raise on the
   `NOT NULL` column, aborting the handler with no send (empty effects);
6. blocked check against the selected role's responder (line 544) → on a
   block a specific rejection and stop;
7. channel log, then the forward to the responder: on success record the
   in-memory mapping, persist the admin copy, persist the durable mapping,
   confirm, and `update_rate_limit`; on transport failure a generic error
   notice (lines 595-643).

`sendOk`/`sentId` stand for the outcome and assigned id of the
`context.bot.send_message` call. -/
def handle_message (now : ℚ) (db : Db) (mem : MsgMap) (rl : RLState)
    (stateOpt : Option UserState) (userId : Nat)
    (msgTgId : Nat) (text : String)
    (sendOk : Bool) (sentId : Nat) : HMResult :=
  match stateOpt with
  | none => ⟨db, mem, rl, none, [.replyNoState]⟩
  | some st =>
    let rl1 := (check_rate_limit now rl).1
    let ok := (check_rate_limit now rl).2
    if !ok then ⟨db, mem, rl1, some st, [.replyRateLimited]⟩
    else
      let db1 := (ensureThread db st userId).1
      let st1 := (ensureThread db st userId).2
      if text == backButtonText then ⟨db1, mem, rl1, some st1, [.backNav]⟩
      else if text == homeButtonText then ⟨db1, mem, rl1, some st1, [.homeNav]⟩
      else
        match st1.threadId with
        | none => ⟨db1, mem, rl1, some st1, []⟩
        | some tid =>
          let db2 := db1.add_message tid msgTgId "user" text
          if db2.is_user_blocked st1.roleAdminUserId userId then
            ⟨db2, mem, rl1, some st1, [.blockedByRoleNotice]⟩
          else
            if sendOk then
              let mem1 := mem.set sentId tid
              let db3 := db2.add_message tid sentId "admin" (adminCopyText tid text)
              let db4 := db3.insertMapping sentId tid
              let rl2 := update_rate_limit now rl1
              ⟨db4, mem1, rl2, some st1,
                [.channelLog, .forwardToAdmin st1.roleAdminUserId sentId, .confirmSent tid]⟩
            else
              ⟨db2, mem, rl1, some st1, [.channelLog, .sendErrorGeneric]⟩

/-- The complete outcome of one `handle_admin_reply` invocation. -/
structure ARResult where
  db : Db
  mem : MsgMap
  effects : List Effect
deriving Repr, DecidableEq

/-- The `handle_admin_reply` (`enhanced_bot.py` lines 682-1052):

1. resolve the replied-to external id through `resolveThread`; a full miss
   emits the "original message not found" rejection and stops (line 778)
   with nothing mutated;
2. load the thread row; a dangling id returns silently (line 794);
3. the thread's role row gives the responder's external id (`none` if the
   role row is gone);
4. responder senders: blocked-target check (line 820), then the
   `/block`-prefix, `/unblock`-prefix and `/blocks`-prefix commands in
   source order (`/blocks` is shadowed by the `/block` prefix test);
   user senders: blocked-by-responder check (line 860, skipped when the
   responder id is Python-falsy);
5. persist the reply under its own telegram id (lines 866-871);
6. channel log, then forward: to the student for a responder sender, to
   the responder for a user sender (a missing responder id makes the send
   raise); on success `save_message_mapping` records the sent copy's id
   and a confirmation is sent; a transport failure is caught and reported
   (lines 1042-1047), the persisted reply kept.

The in-memory map is only ever changed by the resolver's backfill. -/
def handle_admin_reply (db : Db) (mem : MsgMap) (senderId : Nat)
    (isAdmin : Bool) (replyToId replyTgId : Nat) (text : String)
    (sendOk : Bool) (sentId : Nat) : ARResult :=
  match resolveThread mem db senderId replyToId with
  | (none, mem') => ⟨db, mem', [.replyNotFound]⟩
  | (some tid, mem') =>
    match db.threads.find? (fun t => t.threadId == tid) with
    | none => ⟨db, mem', []⟩
    | some th =>
      let studentId := th.userId
      let adminUserId : Option Nat :=
        (db.roles.find? (fun r => r.roleId == th.roleId)).map (·.adminUserId)
      if isAdmin && db.is_user_blocked senderId studentId then
        ⟨db, mem', [.adminBlockedThisUser]⟩
      else if isAdmin && text.startsWith "/block" then
        ⟨db.block_user senderId studentId
            (if 7 < text.length then some ((text.drop 7).trim) else none),
          mem', [.blockDone]⟩
      else if isAdmin && text.startsWith "/unblock" then
        ⟨db.unblock_user senderId studentId, mem', [.unblockDone]⟩
      else if !isAdmin
          && (match adminUserId with
              | some (a + 1) => db.is_user_blocked (a + 1) senderId
              | _ => false) then
        ⟨db, mem', [.blockedByThisAdmin]⟩
      else
        let senderType := if isAdmin then "admin" else "user"
        let db1 := db.add_message tid replyTgId senderType text
        let target : Option Nat := if isAdmin then some studentId else pyTruthy adminUserId
        match target with
        | none =>
            ⟨db1, mem', [.channelLog, .replySendError]⟩
        | some tgt =>
          if sendOk then
            let db2 := db1.insertMapping sentId tid
            ⟨db2, mem',
              [.channelLog, .forwardReply tgt sentId, .confirmReplySent tid]⟩
          else
            ⟨db1, mem', [.channelLog, .replySendError]⟩

/-! ## Store-consistency predicates (claim C7) -/

/-- Every message row references an existing thread row. -/
def msgThreadConsistent (db : Db) : Bool :=
  db.messages.all (fun m => db.threads.any (fun t => t.threadId == m.threadId))

/-- Every mapping row's telegram id has a corresponding message row. -/
def mapMsgConsistent (db : Db) : Bool :=
  db.mappings.all (fun p =>
    db.messages.any (fun m => m.telegramMessageId == p.telegramMessageId))

/-! ## Storage-failure surfacing (claim C8)

Store calls are SQLite statements that may raise; a raise is modelled by a
`fail` flag on the operation.  The `Database` methods of `database.py`
wrap nothing in `try`, so a failure propagates to the caller;
`save_message_mapping` in `enhanced_bot.py` wraps its write in
`try/except Exception` that only logs. -/

/-- A storage-layer failure (an `sqlite3` exception). -/
inductive StoreError where
  | storage
deriving Repr, DecidableEq

/-- The `Database.add_message` under fault injection: `database.py` has no
exception handler, so a failing write surfaces to the caller. -/
def add_message_run (fail : Bool) (db : Db) (threadId telegramMessageId : Nat)
    (senderType messageText : String) : Except StoreError Db :=
  if fail then .error .storage
  else .ok (db.add_message threadId telegramMessageId senderType messageText)

/-- The `save_message_mapping` (`enhanced_bot.py` lines 1455-1467) under fault
injection: the write sits inside `try: ... except Exception as e:
logger.error(...)`, so the caller gets the unchanged database and no error
value on failure — the second component is the error the caller observes,
and it is always `none`. -/
def save_message_mapping_run (fail : Bool) (db : Db)
    (telegramMessageId threadId : Nat) : Db × Option StoreError :=
  match (if fail then Except.error StoreError.storage
         else Except.ok (db.insertMapping telegramMessageId threadId) :
         Except StoreError Db) with
  | .ok db' => (db', none)
  | .error _ => (db, none)

/-! ## Helper lemmas -/

/-- Master case analysis of the resolver: its result is the first hit of
the six-source chain, the map is backfilled exactly on a database-tier
hit, and a full miss leaves the map alone. -/
theorem resolveThread_eq (mem : MsgMap) (db : Db) (u e : Nat) :
    resolveThread mem db u e =
      match firstHit (resolverChain mem db u e) with
      | some t =>
          (some t, if (pyTruthy (mem.get e)).isSome then mem else mem.set e t)
      | none => (none, mem) := by
  cases h1 : pyTruthy (mem.get e) <;>
    cases h2 : tierMappingTable db e <;>
      cases h3 : tierAdminMessages db e <;>
        cases h4 : tierUserMessages db e <;>
          cases h5 : tierPattern db e <;>
            cases h6 : tierRecent db u <;>
              simp [resolveThread, resolverChain, firstHit, h1, h2, h3, h4, h5, h6]

/-- A full resolver miss returns the map unchanged. -/
theorem resolveThread_none {mem : MsgMap} {db : Db} {u e : Nat}
    (h : (resolveThread mem db u e).1 = none) :
    resolveThread mem db u e = (none, mem) := by
  rw [resolveThread_eq] at h ⊢
  cases hf : firstHit (resolverChain mem db u e) <;> simp [hf] at h ⊢

/-! ## Claim C1 — `create_thread` idempotence (code bug) -/

/-- C1: the claim says two consecutive `create_thread` calls for the same
(user, role) pair return the same thread id.  On the code, the first call
creates thread 1 and returns it, but the second call takes the
reactivation branch and then still executes `thread_id = cursor.lastrowid`
(the assignment sits outside the `else`), returning Python `None` instead
of the existing id — the code contradicts its own `-> int` annotation and
the dead `thread_id = existing_thread[0]` assignment. -/
theorem C1_create_thread_second_call_returns_none :
    (Db.empty.create_thread 1 2).2 = some 1
    ∧ ((Db.empty.create_thread 1 2).1.create_thread 1 2).2 = none := by
  decide

/-! ## Claim C6 — blocks are per-responder -/

/-- List form of C6: adding responder `A`'s block row for user `U` does
not change responder `B`'s membership test for `B ≠ A`. -/
theorem blocks_filter_append_ne {A B U : Nat} (r : Option String)
    (l : List BlockRow) (h : B ≠ A) :
    ((l.filter (fun b => !(b.adminUserId == A && b.blockedUserId == U))
        ++ [(⟨A, U, r⟩ : BlockRow)]).any
        (fun b => b.adminUserId == B && b.blockedUserId == U))
      = l.any (fun b => b.adminUserId == B && b.blockedUserId == U) := by
  apply Bool.eq_iff_iff.mpr
  simp only [List.any_eq_true, List.mem_append, List.mem_filter,
    List.mem_singleton, Bool.and_eq_true, beq_iff_eq, Bool.not_eq_true',
    Bool.and_eq_false_iff, beq_eq_false_iff_ne]
  constructor
  · rintro ⟨a, ha | ha, hB, hU⟩
    · exact ⟨a, ha.1, hB, hU⟩
    · subst ha
      exact absurd hB.symm h
  · rintro ⟨a, ha, hB, hU⟩
    refine ⟨a, Or.inl ⟨ha, Or.inl ?_⟩, hB, hU⟩
    rw [hB]
    exact h

/-- C6: for responders `A ≠ B`, `block_user(A, U)` leaves
`is_user_blocked(B, U)` unchanged — the block relation is keyed by
(responder, user) and invisible to other responders. -/
theorem C6_block_user_frame (db : Db) (A B U : Nat) (r : Option String)
    (h : B ≠ A) :
    (db.block_user A U r).is_user_blocked B U = db.is_user_blocked B U := by
  simp only [Db.block_user, Db.is_user_blocked]
  exact blocks_filter_append_ne r db.blocks h

/-- C6 witness: responder 2's test is unchanged by responder 1's block of
user 5 on the empty store. -/
theorem C6_block_user_frame_witness :
    (2 : Nat) ≠ 1
    ∧ (Db.empty.block_user 1 5 (some "spam")).is_user_blocked 2 5
        = Db.empty.is_user_blocked 2 5 :=
  ⟨by decide, C6_block_user_frame Db.empty 1 2 5 (some "spam") (by decide)⟩

/-! ## Claim C8 — storage-failure surfacing (corrected) -/

/-- C8 counterexample: `save_message_mapping` is a Thread Store write, yet
on a failing write (`fail = true`) the caller gets back the unchanged
store and no error value — a silent success.  The mapping for id 5 was
not written. -/
theorem C8_counterexample_mapping_failure_swallowed :
    (save_message_mapping_run true Db.empty 5 1).2 = none
    ∧ (save_message_mapping_run true Db.empty 5 1).1.mappings = [] := by
  decide

/-- C8 amended: the `Database` methods of `database.py` surface a failing
write to the caller (no handler swallows it), but `save_message_mapping`
in `enhanced_bot.py` wraps its write in a log-only `except`, so its caller
observes no error whether the write succeeded or failed. -/
theorem C8_store_failures_surfaced_except_save_mapping (fail : Bool)
    (db : Db) (tid tg : Nat) (st txt : String) :
    (fail = true →
      add_message_run fail db tid tg st txt = .error .storage
      ∧ save_message_mapping_run fail db tg tid = (db, none))
    ∧ (fail = false →
      add_message_run fail db tid tg st txt = .ok (db.add_message tid tg st txt)
      ∧ save_message_mapping_run fail db tg tid = (db.insertMapping tg tid, none)) := by
  constructor <;> rintro rfl <;>
    simp [add_message_run, save_message_mapping_run]

/-- C8 witness: the amended statement at a failing write on the empty
store. -/
theorem C8_store_failures_witness :
    add_message_run true Db.empty 1 2 "user" "hi" = .error .storage
    ∧ save_message_mapping_run true Db.empty 2 1 = (Db.empty, none) :=
  (C8_store_failures_surfaced_except_save_mapping true Db.empty 1 2 "user" "hi").1 rfl

/-- A small concrete store used by witnesses: one thread (id 7, user 10,
role 1), its role row, and a persisted mapping 50 ↦ 7. -/
def sampleDb : Db :=
  { threads := [⟨7, 10, 1, true, 0⟩]
    messages := []
    mappings := [⟨50, 7⟩]
    blocks := []
    roles := [⟨1, "دبیر", 99⟩]
    nextThreadId := 8
    nextMessageId := 1
    clock := 0 }

/-- A consistent concrete store: thread 7 for user 10 and role 1, the
user's message persisted under telegram id 50, and its mapping 50 ↦ 7. -/
def cexDb : Db :=
  { threads := [⟨7, 10, 1, true, 0⟩]
    messages := [⟨1, 7, 50, "user", "hello"⟩]
    mappings := [⟨50, 7⟩]
    blocks := []
    roles := [⟨1, "دبیر", 99⟩]
    nextThreadId := 8
    nextMessageId := 2
    clock := 0 }

/-! ### Characterising tier 6

On any store whose `messages` list carries strictly increasing message
ids (every state the embedding produces, since rows are appended under a
counter) and pairwise distinct telegram ids, the last-resort query
returns exactly the thread of the replying user's most recent message —
the user's most recently active thread. -/

/-- Inserting a row smaller than everything in the list lands at the
end. -/
theorem insertByIdDesc_of_lt (m : MessageRow) (l : List MessageRow)
    (h : ∀ a ∈ l, m.messageId < a.messageId) :
    insertByIdDesc m l = l ++ [m] := by
  induction l with
  | nil => rfl
  | cons a t ih =>
    have ha : ¬(a.messageId ≤ m.messageId) :=
      not_le.mpr (h a (List.mem_cons_self a t))
    rw [insertByIdDesc, if_neg ha, ih (fun b hb => h b (List.mem_cons_of_mem _ hb))]
    rfl

/-- Sorting an id-increasing list by decreasing id reverses it. -/
theorem sortByIdDesc_of_increasing (l : List MessageRow)
    (h : l.Pairwise (fun a b => a.messageId < b.messageId)) :
    sortByIdDesc l = l.reverse := by
  induction l with
  | nil => rfl
  | cons a t ih =>
    rw [List.pairwise_cons] at h
    show insertByIdDesc a (sortByIdDesc t) = (a :: t).reverse
    rw [ih h.2, insertByIdDesc_of_lt]
    · simp
    · intro b hb
      exact h.1 b (List.mem_reverse.mp hb)

/-- In an id-increasing list every row's id is bounded by the last
row's. -/
theorem le_getLast_of_increasing (l : List MessageRow)
    (h : l.Pairwise (fun a b => a.messageId < b.messageId))
    (hne : l ≠ []) :
    ∀ c ∈ l, c.messageId ≤ (l.getLast hne).messageId := by
  induction l with
  | nil => intro c hc; cases hc
  | cons a t ih =>
    rw [List.pairwise_cons] at h
    intro c hc
    cases t with
    | nil =>
      rw [List.mem_singleton] at hc
      subst hc
      exact le_refl _
    | cons b t' =>
      rw [List.getLast_cons (by simp)]
      rcases List.mem_cons.mp hc with rfl | hc'
      · exact le_of_lt (h.1 _ (List.getLast_mem _))
      · exact ih h.2 (by simp) c hc'

/-- What folding `maxStep` from a seed produces: a row of the list or the
seed, at least as large as the seed and as every list element. -/
theorem foldl_maxStep_some (l : List MessageRow) :
    ∀ x : MessageRow, ∃ m, l.foldl maxStep (some x) = some m
      ∧ (m ∈ l ∨ m = x)
      ∧ x.messageId ≤ m.messageId
      ∧ ∀ c ∈ l, c.messageId ≤ m.messageId := by
  induction l with
  | nil =>
    intro x
    exact ⟨x, rfl, Or.inr rfl, le_refl _, by simp⟩
  | cons a t ih =>
    intro x
    by_cases h : x.messageId < a.messageId
    · obtain ⟨m, hm, hmem, hge, hall⟩ := ih a
      refine ⟨m, ?_, ?_, le_of_lt (lt_of_lt_of_le h hge), ?_⟩
      · show t.foldl maxStep (maxStep (some x) a) = some m
        rw [show maxStep (some x) a = some a from by simp [maxStep, h]]
        exact hm
      · rcases hmem with h1 | h1
        · exact Or.inl (List.mem_cons_of_mem _ h1)
        · exact Or.inl (h1 ▸ List.mem_cons_self _ _)
      · intro c hc
        rcases List.mem_cons.mp hc with rfl | hc'
        · exact hge
        · exact hall c hc'
    · obtain ⟨m, hm, hmem, hge, hall⟩ := ih x
      refine ⟨m, ?_, ?_, hge, ?_⟩
      · show t.foldl maxStep (maxStep (some x) a) = some m
        rw [show maxStep (some x) a = some x from by simp [maxStep, h]]
        exact hm
      · rcases hmem with h1 | h1
        · exact Or.inl (List.mem_cons_of_mem _ h1)
        · exact Or.inr h1
      · intro c hc
        rcases List.mem_cons.mp hc with rfl | hc'
        · exact le_trans (not_lt.mp h) hge
        · exact hall c hc'

/-- The `maxByMessageId` of a non-empty list is a member that dominates every
element. -/
theorem maxByMessageId_spec (a : MessageRow) (t : List MessageRow) :
    ∃ m, maxByMessageId (a :: t) = some m
      ∧ m ∈ a :: t
      ∧ ∀ c ∈ a :: t, c.messageId ≤ m.messageId := by
  obtain ⟨m, hm, hmem, hge, hall⟩ := foldl_maxStep_some t a
  refine ⟨m, ?_, ?_, ?_⟩
  · show t.foldl maxStep (maxStep none a) = some m
    exact hm
  · rcases hmem with h1 | h1
    · exact List.mem_cons_of_mem _ h1
    · exact h1 ▸ List.mem_cons_self _ _
  · intro c hc
    rcases List.mem_cons.mp hc with rfl | hc'
    · exact hge
    · exact hall c hc'

/-- Tier 6 computes the thread of the replying user's most recent
message: on a store with increasing message ids and distinct telegram
ids (every state the engine produces), the query's five-row indirection
through telegram ids collapses to the user's latest message row. -/
theorem tierRecent_eq_last_user_message (db : Db) (u : Nat)
    (hinc : db.messages.Pairwise (fun a b => a.messageId < b.messageId))
    (huniq : db.messages.Pairwise
      (fun a b => a.telegramMessageId ≠ b.telegramMessageId)) :
    tierRecent db u = ((userMessages db u).getLast?).map (·.threadId) := by
  have hsubU : (userMessages db u).Sublist db.messages := by
    unfold userMessages
    exact List.filter_sublist _
  have hincU : (userMessages db u).Pairwise
      (fun a b => a.messageId < b.messageId) := hinc.sublist hsubU
  cases hL : (userMessages db u).getLast? with
  | none =>
    have hUM : userMessages db u = [] := by
      rwa [List.getLast?_eq_none_iff] at hL
    unfold tierRecent
    rw [hUM]
    simp [sortByIdDesc, maxByMessageId]
  | some M =>
    have hMmem : M ∈ userMessages db u := List.mem_of_getLast?_eq_some hL
    have hne : userMessages db u ≠ [] := List.ne_nil_of_mem hMmem
    have hMeq : M = (userMessages db u).getLast hne := by
      have h1 := List.getLast?_eq_getLast (userMessages db u) hne
      rw [hL] at h1
      exact Option.some.inj h1
    have hMmsgs : M ∈ db.messages := hsubU.subset hMmem
    have hMmax : ∀ c ∈ userMessages db u, c.messageId ≤ M.messageId := by
      intro c hc
      rw [hMeq]
      exact le_getLast_of_increasing _ hincU hne c hc
    have hsort : sortByIdDesc (userMessages db u)
        = (userMessages db u).reverse := sortByIdDesc_of_increasing _ hincU
    have hrev : (userMessages db u).reverse
        = M :: (userMessages db u).reverse.tail := by
      have h1 : (userMessages db u).reverse.head? = some M := by
        rw [List.head?_reverse]
        exact hL
      cases hr : (userMessages db u).reverse with
      | nil => rw [hr] at h1; cases h1
      | cons x r =>
        rw [hr] at h1
        simp only [List.head?_cons, Option.some.injEq] at h1
        rw [h1]
        rfl
    have hMtake : M ∈ (sortByIdDesc (userMessages db u)).take 5 := by
      rw [hsort, hrev]
      exact List.mem_cons_self _ _
    have htake_sub : ∀ y ∈ (sortByIdDesc (userMessages db u)).take 5,
        y ∈ userMessages db u := by
      intro y hy
      have h1 : y ∈ sortByIdDesc (userMessages db u) := List.take_subset _ _ hy
      rw [hsort, List.mem_reverse] at h1
      exact h1
    have hsymmTg : Symmetric
        (fun a b : MessageRow =>
          a.telegramMessageId ≠ b.telegramMessageId) :=
      fun _ _ h e => h e.symm
    have hsymmId : Symmetric
        (fun a b : MessageRow => a.messageId ≠ b.messageId) :=
      fun _ _ h e => h e.symm
    have htg : ∀ c ∈ db.messages, ∀ y ∈ db.messages,
        c.telegramMessageId = y.telegramMessageId → c = y := by
      intro c hc y hy hcy
      by_contra hne'
      exact (huniq.forall hsymmTg hc hy hne') hcy
    have hid : ∀ c ∈ db.messages, ∀ y ∈ db.messages,
        c.messageId = y.messageId → c = y := by
      intro c hc y hy hcy
      by_contra hne'
      exact ((hinc.imp (fun h => ne_of_lt h)).forall hsymmId hc hy hne') hcy
    have hMcand : M ∈ db.messages.filter (fun m =>
        (((sortByIdDesc (userMessages db u)).take 5).map
          (·.telegramMessageId)).contains m.telegramMessageId) := by
      rw [List.mem_filter]
      refine ⟨hMmsgs, ?_⟩
      have h1 : M.telegramMessageId
          ∈ ((sortByIdDesc (userMessages db u)).take 5).map
            (·.telegramMessageId) := List.mem_map_of_mem _ hMtake
      simpa [List.contains, List.elem_iff] using h1
    have hcand_le : ∀ c ∈ db.messages.filter (fun m =>
        (((sortByIdDesc (userMessages db u)).take 5).map
          (·.telegramMessageId)).contains m.telegramMessageId),
        c.messageId ≤ M.messageId := by
      intro c hc
      rw [List.mem_filter] at hc
      obtain ⟨hcm, hctg⟩ := hc
      have h1 : c.telegramMessageId
          ∈ ((sortByIdDesc (userMessages db u)).take 5).map
            (·.telegramMessageId) := by
        simpa [List.contains, List.elem_iff] using hctg
      obtain ⟨y, hy, hytg⟩ := List.mem_map.mp h1
      have hyU : y ∈ userMessages db u := htake_sub y hy
      have hcy : c = y := htg c hcm y (hsubU.subset hyU) hytg.symm
      subst hcy
      exact hMmax c hyU
    unfold tierRecent
    cases hcex : db.messages.filter (fun m =>
        (((sortByIdDesc (userMessages db u)).take 5).map
          (·.telegramMessageId)).contains m.telegramMessageId) with
    | nil => rw [hcex] at hMcand; cases hMcand
    | cons b s =>
      obtain ⟨m, hm, hmmem, hmall⟩ := maxByMessageId_spec b s
      rw [← hcex] at hmmem hmall
      rw [hm]
      have hmM : m = M :=
        hid m (List.mem_filter.mp hmmem).1 M hMmsgs
          (le_antisymm (hcand_le m hmmem) (hmall M hMcand))
      rw [hmM]

/-! ## Claim C2 — resolver tier order and cache backfill -/

/-- C2: the resolver consults exactly the six sources of `resolverChain`
— the in-memory map (under Python falsiness), the `message_mappings`
table, admin-sent messages by telegram id, user-sent messages by telegram
id, the thread-marker text pattern on admin messages, and the replying
user's recent-thread query — in this fixed order, returning the first
hit; a hit obtained with a falsy in-memory lookup (tiers 2–6) is written
back into the in-memory map, a tier-1 hit leaves the map untouched, and
so does a full miss.  The final conjunct identifies tier 6 as the
replying user's most recently active thread: on a well-formed store it is
the thread of the user's latest message. -/
theorem C2_resolver_order_and_backfill (mem : MsgMap) (db : Db) (u e : Nat) :
    (resolveThread mem db u e).1 = firstHit (resolverChain mem db u e)
    ∧ (∀ t, pyTruthy (mem.get e) = none →
        (resolveThread mem db u e).1 = some t →
        (resolveThread mem db u e).2 = mem.set e t)
    ∧ ((pyTruthy (mem.get e)).isSome = true →
        (resolveThread mem db u e).2 = mem)
    ∧ ((resolveThread mem db u e).1 = none →
        (resolveThread mem db u e).2 = mem)
    ∧ (db.messages.Pairwise (fun a b => a.messageId < b.messageId) →
        db.messages.Pairwise
          (fun a b => a.telegramMessageId ≠ b.telegramMessageId) →
        tierRecent db u = ((userMessages db u).getLast?).map (·.threadId)) := by
  have hmain : (resolveThread mem db u e).1 = firstHit (resolverChain mem db u e)
      ∧ (∀ t, pyTruthy (mem.get e) = none →
          (resolveThread mem db u e).1 = some t →
          (resolveThread mem db u e).2 = mem.set e t)
      ∧ ((pyTruthy (mem.get e)).isSome = true →
          (resolveThread mem db u e).2 = mem)
      ∧ ((resolveThread mem db u e).1 = none →
          (resolveThread mem db u e).2 = mem) := by
    have hm := resolveThread_eq mem db u e
    cases hf : firstHit (resolverChain mem db u e) with
    | none =>
      rw [hf] at hm
      rw [hm]
      simp
    | some t =>
      rw [hf] at hm
      rw [hm]
      refine ⟨rfl, ?_, ?_, ?_⟩
      · intro t' h1 h2
        simp only [Option.some.injEq] at h2
        subst h2
        simp [h1]
      · intro h1
        simp [h1]
      · intro h4
        simp at h4
  exact ⟨hmain.1, hmain.2.1, hmain.2.2.1, hmain.2.2.2,
    fun h1 h2 => tierRecent_eq_last_user_message db u h1 h2⟩

/-- C2 witness: on a store holding the mapping 50 ↦ 7 and an empty
in-memory map, the resolver's hit comes from the mapping table (the first
hit of the chain) and is backfilled into the map; with the map already
warm, nothing is written. -/
theorem C2_resolver_order_and_backfill_witness :
    ((resolveThread [] sampleDb 10 50).1 = firstHit (resolverChain [] sampleDb 10 50)
      ∧ (resolveThread [] sampleDb 10 50).2 = MsgMap.set [] 50 7)
    ∧ (resolveThread [(50, 7)] sampleDb 10 50).2 = [(50, 7)]
    ∧ tierRecent cexDb 10 = ((userMessages cexDb 10).getLast?).map (·.threadId) :=
  ⟨⟨(C2_resolver_order_and_backfill [] sampleDb 10 50).1,
    (C2_resolver_order_and_backfill [] sampleDb 10 50).2.1 7 (by decide) (by decide)⟩,
   (C2_resolver_order_and_backfill [(50, 7)] sampleDb 10 50).2.2.1 (by decide),
   (C2_resolver_order_and_backfill [] cexDb 10 50).2.2.2.2 (by simp [cexDb])
     (by simp [cexDb])⟩

/-! ## Claim C3 — unresolvable replies are rejected without mutation -/

/-- C3: a reply whose referenced external id fails every resolver tier
makes `handle_admin_reply` emit exactly the "original message not found"
rejection, with the store, the in-memory map and everything else
unchanged — no message row, no mapping, no forward. -/
theorem C3_full_miss_rejects_without_mutation (db : Db) (mem : MsgMap)
    (senderId : Nat) (isAdmin : Bool) (E replyTgId : Nat) (text : String)
    (sendOk : Bool) (sentId : Nat)
    (h : (resolveThread mem db senderId E).1 = none) :
    handle_admin_reply db mem senderId isAdmin E replyTgId text sendOk sentId
      = ⟨db, mem, [Effect.replyNotFound]⟩ := by
  have hr := resolveThread_none h
  simp [handle_admin_reply, hr]

/-- C3 witness: every tier misses on the empty store, and the handler
only emits the rejection. -/
theorem C3_full_miss_witness :
    (resolveThread [] Db.empty 1 2).1 = none
    ∧ handle_admin_reply Db.empty [] 1 true 2 3 "hello" true 99
        = ⟨Db.empty, [], [Effect.replyNotFound]⟩ :=
  ⟨by decide,
   C3_full_miss_rejects_without_mutation Db.empty [] 1 true 2 3 "hello" true 99
     (by decide)⟩

/-! ## Claim C4 — the two rate-limiter admission checks -/

/-- C4: `check_rate_limit` (cap `maxMessagesPer10Minutes = 5`, window
600 s, spacing 10 s):

* the stored-back counts are exactly the pruned ones (entries at or past
  600 s of age removed before counting) and the last-accepted time is not
  touched by the check;
* a message whose window already holds five accepted predecessors (the
  pruned counts sum to ≥ 5) is rejected;
* a message arriving strictly less than 10 s after the last accepted one
  is rejected, regardless of the window count;
* a message whose pruned window count is below the cap and which respects
  the spacing is accepted — so once 600 s have elapsed from the first of
  five accepted messages, that first timestamp is pruned and a new
  message is accepted. -/
theorem C4_rate_limiter_checks (now : ℚ) (s : RLState) :
    ((check_rate_limit now s).1.counts = pruneCounts now s.counts
      ∧ (check_rate_limit now s).1.last = s.last)
    ∧ (maxMessagesPer10Minutes ≤ ((pruneCounts now s.counts).map Prod.snd).sum →
        (check_rate_limit now s).2 = false)
    ∧ (∀ t, s.last = some t → now - t < 10 →
        (check_rate_limit now s).2 = false)
    ∧ (((pruneCounts now s.counts).map Prod.snd).sum < maxMessagesPer10Minutes →
        (∀ t, s.last = some t → 10 ≤ now - t) →
        (check_rate_limit now s).2 = true) := by
  refine ⟨?_, ?_, ?_, ?_⟩
  · unfold check_rate_limit
    dsimp only
    split
    · exact ⟨rfl, rfl⟩
    · split
      · split <;> exact ⟨rfl, rfl⟩
      · exact ⟨rfl, rfl⟩
  · intro h
    simp [check_rate_limit, h]
  · intro t ht h10
    by_cases hrec :
        maxMessagesPer10Minutes ≤ ((pruneCounts now s.counts).map Prod.snd).sum <;>
      simp [check_rate_limit, hrec, ht, h10]
  · intro hlt hlast
    have hnot : ¬(maxMessagesPer10Minutes
        ≤ ((pruneCounts now s.counts).map Prod.snd).sum) := not_le.mpr hlt
    cases hl : s.last with
    | none => simp [check_rate_limit, hnot, hl]
    | some t =>
      simp [check_rate_limit, hnot, hl, not_lt.mpr (hlast t hl)]

/-- C4 witness: at `now = 1000` — a user with five accepted messages at
`t = 500` (inside the window) is rejected; a user whose last accepted
message is 5 s old is rejected by spacing; a user with five accepted
messages whose first (`t = 400`) is 600 s old has only four counted, so
a new message is accepted; and the stored counts are the pruned ones. -/
theorem C4_rate_limiter_checks_witness :
    (check_rate_limit 1000 ⟨[(500, 5)], some 500⟩).2 = false
    ∧ (check_rate_limit 1000 ⟨[(995, 1)], some 995⟩).2 = false
    ∧ (check_rate_limit 1000
        ⟨[(400, 1), (450, 1), (460, 1), (470, 1), (480, 1)], some 480⟩).2 = true
    ∧ (check_rate_limit 1000 ⟨[(500, 5)], some 500⟩).1.counts
        = pruneCounts 1000 [(500, 5)] := by
  refine ⟨?_, ?_, ?_, ?_⟩
  · refine (C4_rate_limiter_checks 1000 ⟨[(500, 5)], some 500⟩).2.1 ?_
    norm_num [pruneCounts, maxMessagesPer10Minutes]
  · refine (C4_rate_limiter_checks 1000 ⟨[(995, 1)], some 995⟩).2.2.1 995 rfl ?_
    norm_num
  · refine (C4_rate_limiter_checks 1000
      ⟨[(400, 1), (450, 1), (460, 1), (470, 1), (480, 1)], some 480⟩).2.2.2 ?_ ?_
    · norm_num [pruneCounts, maxMessagesPer10Minutes]
    · intro t ht
      simp only [Option.some.injEq] at ht
      subst ht
      norm_num
  · exact (C4_rate_limiter_checks 1000 ⟨[(500, 5)], some 500⟩).1.1

/-! ## Helper lemmas on the handler's building blocks -/

/-- The `check_rate_limit` stores back the pruned counts and never touches the
last-accepted time. -/
theorem check_rate_limit_fst (now : ℚ) (s : RLState) :
    (check_rate_limit now s).1 = ⟨pruneCounts now s.counts, s.last⟩ := by
  unfold check_rate_limit
  dsimp only
  split
  · rfl
  · split
    · split <;> rfl
    · rfl

/-- The `create_thread` never touches messages, mappings, blocks, roles, the
message counter or the clock. -/
theorem create_thread_frame (db : Db) (u r : Nat) :
    ((db.create_thread u r).1).messages = db.messages
    ∧ ((db.create_thread u r).1).mappings = db.mappings
    ∧ ((db.create_thread u r).1).blocks = db.blocks
    ∧ ((db.create_thread u r).1).roles = db.roles
    ∧ ((db.create_thread u r).1).nextMessageId = db.nextMessageId
    ∧ ((db.create_thread u r).1).clock = db.clock := by
  unfold Db.create_thread
  split <;> exact ⟨rfl, rfl, rfl, rfl, rfl, rfl⟩

/-- The `ensureThread` keeps the selected role and only ever touches the
thread table (through `create_thread`). -/
theorem ensureThread_frame (db : Db) (st : UserState) (u : Nat) :
    ((ensureThread db st u).1).messages = db.messages
    ∧ ((ensureThread db st u).1).mappings = db.mappings
    ∧ ((ensureThread db st u).1).blocks = db.blocks
    ∧ ((ensureThread db st u).1).nextMessageId = db.nextMessageId
    ∧ ((ensureThread db st u).1).clock = db.clock
    ∧ ((ensureThread db st u).2).roleId = st.roleId
    ∧ ((ensureThread db st u).2).roleAdminUserId = st.roleAdminUserId := by
  unfold ensureThread
  split
  · exact ⟨rfl, rfl, rfl, rfl, rfl, rfl, rfl⟩
  · exact ⟨(create_thread_frame db u st.roleId).1,
      (create_thread_frame db u st.roleId).2.1,
      (create_thread_frame db u st.roleId).2.2.1,
      (create_thread_frame db u st.roleId).2.2.2.2.1,
      (create_thread_frame db u st.roleId).2.2.2.2.2, rfl, rfl⟩

/-- The `is_user_blocked` only reads the blocks table. -/
theorem is_user_blocked_of_blocks {db1 db2 : Db} (h : db1.blocks = db2.blocks)
    (a u : Nat) : db1.is_user_blocked a u = db2.is_user_blocked a u := by
  simp [Db.is_user_blocked, h]

/-! ## Claim C10 — quota is consumed only on a successful forward -/

/-- True when the effect list contains the delivery
confirmation (emitted right before `update_rate_limit` on the only path
that calls it). -/
def hasConfirm (es : List Effect) : Bool :=
  es.any (fun e => match e with | .confirmSent _ => true | _ => false)

/-- True when the effect list contains the forwarded copy sent to the
responder. -/
def hasForward (es : List Effect) : Bool :=
  es.any (fun e => match e with | .forwardToAdmin _ _ => true | _ => false)

/-- C10: `handle_message` records a rate-limit timestamp exactly on the
successful-forward path: when the delivery confirmation was emitted, the
transport send succeeded, the forwarded copy was sent, and the limiter
state is `update_rate_limit` of the checked state; on every other path —
missing state, rate-limit rejection, the two reserved navigation texts,
block rejection, transport failure — the last-accepted time is unchanged
and no window entry is added (the counts are a sublist of the old ones:
at most pruned). -/
theorem C10_rate_limit_update_only_on_forward (now : ℚ) (db : Db)
    (mem : MsgMap) (rl : RLState) (stateOpt : Option UserState)
    (userId msgTgId : Nat) (text : String) (sendOk : Bool) (sentId : Nat) :
    (hasConfirm (handle_message now db mem rl stateOpt userId msgTgId text
        sendOk sentId).effects = true →
      sendOk = true
      ∧ hasForward (handle_message now db mem rl stateOpt userId msgTgId text
          sendOk sentId).effects = true
      ∧ (handle_message now db mem rl stateOpt userId msgTgId text
          sendOk sentId).rl
          = update_rate_limit now (check_rate_limit now rl).1)
    ∧ (hasConfirm (handle_message now db mem rl stateOpt userId msgTgId text
        sendOk sentId).effects = false →
      (handle_message now db mem rl stateOpt userId msgTgId text
          sendOk sentId).rl.last = rl.last
      ∧ List.Sublist (handle_message now db mem rl stateOpt userId msgTgId text
          sendOk sentId).rl.counts rl.counts) := by
  have hsub : List.Sublist (check_rate_limit now rl).1.counts rl.counts := by
    rw [check_rate_limit_fst]
    exact List.filter_sublist rl.counts
  have hlast : (check_rate_limit now rl).1.last = rl.last := by
    rw [check_rate_limit_fst]
  cases stateOpt with
  | none =>
    simp [handle_message, hasConfirm]
  | some st =>
    simp only [handle_message]
    cases hok : (check_rate_limit now rl).2 with
    | false => simp [hasConfirm, hlast, hsub]
    | true =>
      simp only [Bool.not_true, Bool.false_eq_true, if_false]
      by_cases hb : text == backButtonText
      · simp [hb, hasConfirm, hlast, hsub]
      · simp only [hb, if_false]
        by_cases hh : text == homeButtonText
        · simp [hh, hasConfirm, hlast, hsub]
        · simp only [hh, if_false]
          cases htid : (ensureThread db st userId).2.threadId with
          | none => simp [hasConfirm, hlast, hsub]
          | some tid =>
            by_cases hblk :
                (((ensureThread db st userId).1).add_message tid msgTgId "user"
                  text).is_user_blocked
                  ((ensureThread db st userId).2).roleAdminUserId userId = true
            · simp [hblk, hasConfirm, hlast, hsub]
            · cases sendOk with
              | false => simp [hblk, hasConfirm, hlast, hsub]
              | true => simp [hblk, hasConfirm, hasForward]

/-- C10 witness: on the sample store with user 10 not blocked, a
successful forward (`sendOk = true`) confirms and records the quota
timestamp; the same message with a failing transport leaves the limiter
state untouched. -/
theorem C10_rate_limit_update_witness :
    hasConfirm (handle_message 0 sampleDb [] ⟨[], none⟩
        (some ⟨1, 99, some 7⟩) 10 60 "hi" true 70).effects = true
    ∧ (handle_message 0 sampleDb [] ⟨[], none⟩
        (some ⟨1, 99, some 7⟩) 10 60 "hi" true 70).rl
        = update_rate_limit 0 (check_rate_limit 0 ⟨[], none⟩).1
    ∧ (handle_message 0 sampleDb [] ⟨[], none⟩
        (some ⟨1, 99, some 7⟩) 10 60 "hi" false 70).rl.last
        = (⟨[], none⟩ : RLState).last :=
  ⟨by decide,
   ((C10_rate_limit_update_only_on_forward 0 sampleDb [] ⟨[], none⟩
      (some ⟨1, 99, some 7⟩) 10 60 "hi" true 70).1 (by decide)).2.2,
   ((C10_rate_limit_update_only_on_forward 0 sampleDb [] ⟨[], none⟩
      (some ⟨1, 99, some 7⟩) 10 60 "hi" false 70).2 (by decide)).1⟩

/-- The sample store with one block row: responder 99 has blocked
user 10. -/
def blockedDb : Db := { sampleDb with blocks := [⟨99, 10, none⟩] }

/-! ## Claim C5 — fail-closed block enforcement at both points -/

/-- Blocked path of `handle_message`: when the selected role's responder
has blocked the sender and the message passed the earlier
state/rate/navigation gates with a usable thread id, the handler stops
with exactly the blocked rejection and the pre-forward store — the
inbound user row only. -/
theorem handle_message_blocked_path (now : ℚ) (db : Db) (mem : MsgMap)
    (rl : RLState) (st : UserState) (userId msgTgId : Nat) (text : String)
    (sendOk : Bool) (sentId : Nat)
    (hok : (check_rate_limit now rl).2 = true)
    (hback : text ≠ backButtonText) (hhome : text ≠ homeButtonText)
    (tid : Nat) (htid : (ensureThread db st userId).2.threadId = some tid)
    (hblk : db.is_user_blocked st.roleAdminUserId userId = true) :
    handle_message now db mem rl (some st) userId msgTgId text sendOk sentId
      = ⟨((ensureThread db st userId).1).add_message tid msgTgId "user" text,
          mem, (check_rate_limit now rl).1,
          some (ensureThread db st userId).2,
          [Effect.blockedByRoleNotice]⟩ := by
  have hb : (text == backButtonText) = false := beq_eq_false_iff_ne.mpr hback
  have hh : (text == homeButtonText) = false := beq_eq_false_iff_ne.mpr hhome
  have hblk2 :
      (((ensureThread db st userId).1).add_message tid msgTgId "user"
        text).is_user_blocked
        ((ensureThread db st userId).2).roleAdminUserId userId = true := by
    have e1 : (((ensureThread db st userId).1).add_message tid msgTgId "user"
        text).blocks = db.blocks := by
      show ((ensureThread db st userId).1).blocks = db.blocks
      exact (ensureThread_frame db st userId).2.2.1
    rw [is_user_blocked_of_blocks e1,
      (ensureThread_frame db st userId).2.2.2.2.2.2]
    exact hblk
  simp [handle_message, hok, hb, hh, htid, hblk2]

/-- Blocked path of `handle_admin_reply`: a responder replying into a
thread whose user they blocked gets exactly the blocked rejection and
the store is completely unchanged. -/
theorem handle_admin_reply_blocked_path (db : Db) (mem : MsgMap)
    (senderId E replyTgId : Nat) (rtext : String) (rsendOk : Bool)
    (rsentId : Nat) (tid : Nat) (mem' : MsgMap) (th : ThreadRow)
    (hres : resolveThread mem db senderId E = (some tid, mem'))
    (hfind : db.threads.find? (fun t => t.threadId == tid) = some th)
    (hblk : db.is_user_blocked senderId th.userId = true) :
    handle_admin_reply db mem senderId true E replyTgId rtext rsendOk rsentId
      = ⟨db, mem', [Effect.adminBlockedThisUser]⟩ := by
  simp [handle_admin_reply, hres, hfind, hblk]

/-- C5: block enforcement is fail-closed at both enforcement points.

(a) In `handle_message`, when the selected role's responder has blocked
the sender (and the message passed the earlier state/rate/navigation
gates, with a usable thread id), the handler stops with exactly the
blocked-specific rejection `blockedByRoleNotice` (a different constructor
from the generic `sendErrorGeneric`): the resulting store is the
pre-forward store — the inbound user row only — so no forwarded copy and
no mapping is persisted, the in-memory map is untouched and no forward
effect is emitted.

(b) In `handle_admin_reply`, a responder replying into a thread whose
user they blocked gets exactly the blocked-specific rejection
`adminBlockedThisUser` and the store is completely unchanged. -/
theorem C5_block_enforcement_fail_closed (now : ℚ) (db : Db) (mem : MsgMap)
    (rl : RLState) (st : UserState) (userId msgTgId : Nat) (text : String)
    (sendOk : Bool) (sentId : Nat) (senderId E replyTgId : Nat)
    (rtext : String) (rsendOk : Bool) (rsentId : Nat) :
    ((check_rate_limit now rl).2 = true →
      text ≠ backButtonText → text ≠ homeButtonText →
      ∀ tid, (ensureThread db st userId).2.threadId = some tid →
      db.is_user_blocked st.roleAdminUserId userId = true →
      handle_message now db mem rl (some st) userId msgTgId text sendOk sentId
        = ⟨((ensureThread db st userId).1).add_message tid msgTgId "user" text,
            mem, (check_rate_limit now rl).1,
            some (ensureThread db st userId).2,
            [Effect.blockedByRoleNotice]⟩)
    ∧ (∀ tid mem' th,
      resolveThread mem db senderId E = (some tid, mem') →
      db.threads.find? (fun t => t.threadId == tid) = some th →
      db.is_user_blocked senderId th.userId = true →
      handle_admin_reply db mem senderId true E replyTgId rtext rsendOk rsentId
        = ⟨db, mem', [Effect.adminBlockedThisUser]⟩) :=
  ⟨fun hok hback hhome tid htid hblk =>
      handle_message_blocked_path now db mem rl st userId msgTgId text sendOk
        sentId hok hback hhome tid htid hblk,
   fun tid mem' th hres hfind hblk =>
      handle_admin_reply_blocked_path db mem senderId E replyTgId rtext
        rsendOk rsentId tid mem' th hres hfind hblk⟩

/-- C5 witness: on a store where responder 99 has blocked user 10 —
user 10's message to role 1 stops at the blocked notice with only the
user row persisted, and responder 99's reply into user 10's thread stops
at the blocked notice with nothing changed. -/
theorem C5_block_enforcement_witness :
    handle_message 0 blockedDb [] ⟨[], none⟩ (some ⟨1, 99, some 7⟩)
        10 60 "hi" true 70
      = ⟨((ensureThread blockedDb ⟨1, 99, some 7⟩ 10).1).add_message
            7 60 "user" "hi",
          [], (check_rate_limit 0 ⟨[], none⟩).1,
          some (ensureThread blockedDb ⟨1, 99, some 7⟩ 10).2,
          [Effect.blockedByRoleNotice]⟩
    ∧ handle_admin_reply blockedDb [(50, 7)] 99 true 50 61 "ok" true 71
      = ⟨blockedDb, [(50, 7)], [Effect.adminBlockedThisUser]⟩ :=
  ⟨(C5_block_enforcement_fail_closed 0 blockedDb [] ⟨[], none⟩ ⟨1, 99, some 7⟩
      10 60 "hi" true 70 99 50 61 "ok" true 71).1
      (by decide) (by decide) (by decide) 7 (by decide) (by decide),
   (C5_block_enforcement_fail_closed 0 blockedDb [] ⟨[], none⟩ ⟨1, 99, some 7⟩
      10 60 "hi" true 70 99 50 61 "ok" true 71).2
      7 [(50, 7)] ⟨7, 10, 1, true, 0⟩ (by decide) (by decide) (by decide)⟩

/-- An empty store except for role 1 and the block row (99 blocks 10):
user 10 has no thread yet. -/
def freshBlockedDb : Db :=
  { Db.empty with
      roles := [⟨1, "دبیر", 99⟩]
      blocks := [⟨99, 10, none⟩] }

/-! ## Claim C9 — the blocked sender's message is persisted before the
block check -/

/-- C9: a user blocked by the selected responder who sends a plain text
while holding no thread still gets a thread created and the inbound text
appended as a `sender_type='user'` row — the persistence at line 533 runs
before the block check at line 544 — and only the forwarded admin copy,
its mapping, and the forward itself are suppressed.  The freshness
hypothesis (`every existing thread id is below the counter`) holds of
every store the embedding produces. -/
theorem C9_blocked_message_persisted_before_check (now : ℚ) (db : Db)
    (mem : MsgMap) (rl : RLState) (st : UserState) (userId msgTgId : Nat)
    (text : String) (sendOk : Bool) (sentId : Nat)
    (hok : (check_rate_limit now rl).2 = true)
    (hback : text ≠ backButtonText) (hhome : text ≠ homeButtonText)
    (habsent : pyTruthy st.threadId = none)
    (hnothread : db.threads.find?
        (fun t => t.userId == userId && t.roleId == st.roleId) = none)
    (hfresh : ∀ t ∈ db.threads, t.threadId ≠ db.nextThreadId)
    (hblk : db.is_user_blocked st.roleAdminUserId userId = true) :
    (handle_message now db mem rl (some st) userId msgTgId text sendOk
        sentId).db.threads
      = db.threads ++ [⟨db.nextThreadId, userId, st.roleId, true, db.clock⟩]
    ∧ (handle_message now db mem rl (some st) userId msgTgId text sendOk
        sentId).db.messages
      = db.messages
        ++ [⟨db.nextMessageId, db.nextThreadId, msgTgId, "user", text⟩]
    ∧ (handle_message now db mem rl (some st) userId msgTgId text sendOk
        sentId).db.mappings = db.mappings
    ∧ (handle_message now db mem rl (some st) userId msgTgId text sendOk
        sentId).mem = mem
    ∧ (handle_message now db mem rl (some st) userId msgTgId text sendOk
        sentId).effects = [Effect.blockedByRoleNotice] := by
  have hEnsure : ensureThread db st userId
      = ({ db with
            threads := db.threads
              ++ [⟨db.nextThreadId, userId, st.roleId, true, db.clock⟩],
            nextThreadId := db.nextThreadId + 1 },
         { st with threadId := some db.nextThreadId }) := by
    unfold ensureThread Db.create_thread
    rw [habsent, hnothread]
  have htid : (ensureThread db st userId).2.threadId = some db.nextThreadId := by
    rw [hEnsure]
  have h := handle_message_blocked_path now db mem rl st userId msgTgId text
    sendOk sentId hok hback hhome db.nextThreadId htid hblk
  rw [h, hEnsure]
  refine ⟨?_, rfl, rfl, rfl, rfl⟩
  show (List.map _ (db.threads
      ++ [⟨db.nextThreadId, userId, st.roleId, true, db.clock⟩]))
    = _
  rw [List.map_append, List.map_congr_left (g := id) ?_, List.map_id]
  · simp
  · intro t ht
    have : (t.threadId == db.nextThreadId) = false :=
      beq_eq_false_iff_ne.mpr (hfresh t ht)
    simp [this]

/-- C9 witness: a fresh (user 10, role 1) pair on a store where
responder 99 blocked user 10 — the thread row and the user message row
appear although the message is rejected as blocked. -/
theorem C9_blocked_message_persisted_witness :
    (handle_message 0 freshBlockedDb [] ⟨[], none⟩ (some ⟨1, 99, none⟩)
        10 60 "hi" true 70).db.threads = [⟨1, 10, 1, true, 0⟩]
    ∧ (handle_message 0 freshBlockedDb [] ⟨[], none⟩ (some ⟨1, 99, none⟩)
        10 60 "hi" true 70).db.messages = [⟨1, 1, 60, "user", "hi"⟩]
    ∧ (handle_message 0 freshBlockedDb [] ⟨[], none⟩ (some ⟨1, 99, none⟩)
        10 60 "hi" true 70).effects = [Effect.blockedByRoleNotice] := by
  have h := C9_blocked_message_persisted_before_check 0 freshBlockedDb []
    ⟨[], none⟩ ⟨1, 99, none⟩ 10 60 "hi" true 70
    (by decide) (by decide) (by decide) (by decide) (by decide)
    (by intro t ht; simp [freshBlockedDb, Db.empty] at ht) (by decide)
  exact ⟨h.1, h.2.1, h.2.2.2.2⟩

/-! ## Claim C7 — store-consistency invariant -/

/-- Propositional form of `msgThreadConsistent`. -/
theorem msgThreadConsistent_iff (db : Db) :
    msgThreadConsistent db = true
      ↔ ∀ m ∈ db.messages, ∃ t ∈ db.threads, t.threadId = m.threadId := by
  simp [msgThreadConsistent, List.all_eq_true, List.any_eq_true]

/-- Propositional form of `mapMsgConsistent`. -/
theorem mapMsgConsistent_iff (db : Db) :
    mapMsgConsistent db = true
      ↔ ∀ p ∈ db.mappings, ∃ m ∈ db.messages,
          m.telegramMessageId = p.telegramMessageId := by
  simp [mapMsgConsistent, List.all_eq_true, List.any_eq_true]

/-- Consistency predicates only read the fields they mention. -/
theorem msgThreadConsistent_congr {db1 db2 : Db}
    (hm : db1.messages = db2.messages) (ht : db1.threads = db2.threads) :
    msgThreadConsistent db1 = msgThreadConsistent db2 := by
  simp [msgThreadConsistent, hm, ht]

/-- See `msgThreadConsistent_congr`. -/
theorem mapMsgConsistent_congr {db1 db2 : Db}
    (hp : db1.mappings = db2.mappings) (hm : db1.messages = db2.messages) :
    mapMsgConsistent db1 = mapMsgConsistent db2 := by
  simp [mapMsgConsistent, hp, hm]

/-- The per-row thread bump of `add_message` keeps thread ids, so thread
existence transfers across it. -/
theorem add_message_thread_exists {db : Db} {tid : Nat}
    (tg : Nat) (s x : String) (tid' : Nat)
    (hex : ∃ t ∈ db.threads, t.threadId = tid') :
    ∃ t ∈ (db.add_message tid tg s x).threads, t.threadId = tid' := by
  obtain ⟨t, ht, hid⟩ := hex
  refine ⟨_, List.mem_map_of_mem _ ht, ?_⟩
  dsimp only
  split <;> exact hid

/-- The `create_thread` preserves the messages-reference-threads half. -/
theorem create_thread_msgThread (db : Db) (u r : Nat)
    (hc : msgThreadConsistent db = true) :
    msgThreadConsistent ((db.create_thread u r).1) = true := by
  rw [msgThreadConsistent_iff]
  rw [msgThreadConsistent_iff] at hc
  unfold Db.create_thread
  split
  · intro m hm
    obtain ⟨t, ht, hid⟩ := hc m hm
    refine ⟨_, List.mem_map_of_mem _ ht, ?_⟩
    dsimp only
    split <;> exact hid
  · intro m hm
    obtain ⟨t, ht, hid⟩ := hc m hm
    exact ⟨t, List.mem_append_left _ ht, hid⟩

/-- The `ensureThread` preserves the messages-reference-threads half. -/
theorem ensureThread_msgThread (db : Db) (st : UserState) (u : Nat)
    (hc : msgThreadConsistent db = true) :
    msgThreadConsistent ((ensureThread db st u).1) = true := by
  unfold ensureThread
  split
  · exact hc
  · exact create_thread_msgThread db u st.roleId hc

/-- The `ensureThread` preserves the mappings-reference-messages half (it
touches neither table). -/
theorem ensureThread_mapMsg (db : Db) (st : UserState) (u : Nat) :
    mapMsgConsistent ((ensureThread db st u).1) = mapMsgConsistent db :=
  mapMsgConsistent_congr (ensureThread_frame db st u).2.1
    (ensureThread_frame db st u).1

/-- The thread id `ensureThread` hands back always names an existing
thread, provided a cached id does (a fresh one is the inserted row's). -/
theorem ensureThread_thread_exists (db : Db) (st : UserState) (u tid : Nat)
    (hstate : ∀ tid', pyTruthy st.threadId = some tid' →
      ∃ t ∈ db.threads, t.threadId = tid')
    (htid : (ensureThread db st u).2.threadId = some tid) :
    ∃ t ∈ ((ensureThread db st u).1).threads, t.threadId = tid := by
  unfold ensureThread at htid ⊢
  cases hpy : pyTruthy st.threadId with
  | some t' =>
    rw [hpy] at htid
    dsimp only at htid ⊢
    simp only [Option.some.injEq] at htid
    subst htid
    exact hstate t' hpy
  | none =>
    rw [hpy] at htid
    dsimp only at htid ⊢
    unfold Db.create_thread at htid ⊢
    cases hf : db.threads.find?
        (fun t => t.userId == u && t.roleId == st.roleId) with
    | some t0 =>
      rw [hf] at htid
      simp at htid
    | none =>
      rw [hf] at htid
      dsimp only at htid ⊢
      simp only [Option.some.injEq] at htid
      subst htid
      exact ⟨_, List.mem_append_right _ (List.mem_singleton_self _), rfl⟩

/-- The `add_message` into an existing thread preserves the
messages-reference-threads half. -/
theorem add_message_msgThread (db : Db) (tid tg : Nat) (s x : String)
    (hex : ∃ t ∈ db.threads, t.threadId = tid)
    (hc : msgThreadConsistent db = true) :
    msgThreadConsistent (db.add_message tid tg s x) = true := by
  rw [msgThreadConsistent_iff]
  rw [msgThreadConsistent_iff] at hc
  intro m hm
  dsimp only [Db.add_message] at hm
  rcases List.mem_append.1 hm with h | h
  · obtain ⟨t, ht, hid⟩ := hc m h
    refine ⟨_, List.mem_map_of_mem _ ht, ?_⟩
    dsimp only
    split <;> exact hid
  · obtain ⟨t, ht, hid⟩ := hex
    rw [List.mem_singleton] at h
    subst h
    refine ⟨_, List.mem_map_of_mem _ ht, ?_⟩
    dsimp only
    split <;> exact hid

/-- The `add_message` preserves the mappings-reference-messages half. -/
theorem add_message_mapMsg (db : Db) (tid tg : Nat) (s x : String)
    (hc : mapMsgConsistent db = true) :
    mapMsgConsistent (db.add_message tid tg s x) = true := by
  rw [mapMsgConsistent_iff]
  rw [mapMsgConsistent_iff] at hc
  intro p hp
  dsimp only [Db.add_message] at hp ⊢
  obtain ⟨m, hm, hid⟩ := hc p hp
  exact ⟨m, List.mem_append_left _ hm, hid⟩

/-- The `insertMapping` keeps the mappings-reference-messages half when the
new mapping's telegram id already has a message row. -/
theorem insertMapping_mapMsg (db : Db) (tg tid : Nat)
    (hmsg : ∃ m ∈ db.messages, m.telegramMessageId = tg)
    (hc : mapMsgConsistent db = true) :
    mapMsgConsistent (db.insertMapping tg tid) = true := by
  rw [mapMsgConsistent_iff]
  rw [mapMsgConsistent_iff] at hc
  intro p hp
  dsimp only [Db.insertMapping] at hp ⊢
  rcases List.mem_append.1 hp with h | h
  · exact hc p (List.mem_of_mem_filter h)
  · rw [List.mem_singleton] at h
    subst h
    exact hmsg

/-- The forwarded admin copy written by `handle_message` carries exactly
the sent message's telegram id, so it witnesses the new mapping. -/
theorem add_message_self_witness (db : Db) (tid tg : Nat) (s x : String) :
    ∃ m ∈ (db.add_message tid tg s x).messages, m.telegramMessageId = tg := by
  dsimp only [Db.add_message]
  exact ⟨_, List.mem_append_right _ (List.mem_singleton_self _), rfl⟩

/-- C7 amended: every routing-engine operation leaves messages
referencing existing threads — `handle_message` (given that a cached
thread id in the user state names an existing thread, which holds of
every state the engine itself produced) also preserves the
mapping-references-a-message half; `handle_admin_reply` preserves the
thread half unconditionally, but not the mapping half: its successful
forward records the sent copy's id in `message_mappings` without
persisting that copy in `messages` (see the counterexample). -/
theorem C7_store_consistency_amended (now : ℚ) (db : Db) (mem : MsgMap)
    (rl : RLState) (stateOpt : Option UserState) (userId msgTgId : Nat)
    (text : String) (sendOk : Bool) (sentId : Nat) (senderId : Nat)
    (isAdmin : Bool) (E replyTgId : Nat) (rtext : String) (rsendOk : Bool)
    (rsentId : Nat) :
    ((∀ st, stateOpt = some st → ∀ tid, pyTruthy st.threadId = some tid →
        ∃ t ∈ db.threads, t.threadId = tid) →
      msgThreadConsistent db = true → mapMsgConsistent db = true →
      msgThreadConsistent (handle_message now db mem rl stateOpt userId
          msgTgId text sendOk sentId).db = true
      ∧ mapMsgConsistent (handle_message now db mem rl stateOpt userId
          msgTgId text sendOk sentId).db = true)
    ∧ (msgThreadConsistent db = true →
      msgThreadConsistent (handle_admin_reply db mem senderId isAdmin E
          replyTgId rtext rsendOk rsentId).db = true) := by
  constructor
  · intro hstate hmt hmm
    cases stateOpt with
    | none => simpa [handle_message] using ⟨hmt, hmm⟩
    | some st =>
      have hmt1 : msgThreadConsistent ((ensureThread db st userId).1) = true :=
        ensureThread_msgThread db st userId hmt
      have hmm1 : mapMsgConsistent ((ensureThread db st userId).1) = true := by
        rw [ensureThread_mapMsg]
        exact hmm
      simp only [handle_message]
      cases hok : (check_rate_limit now rl).2 with
      | false => simpa using ⟨hmt, hmm⟩
      | true =>
        simp only [Bool.not_true, Bool.false_eq_true, if_false]
        cases hb : text == backButtonText with
        | true => simpa [hb] using ⟨hmt1, hmm1⟩
        | false =>
          cases hh : text == homeButtonText with
          | true => simpa [hb, hh] using ⟨hmt1, hmm1⟩
          | false =>
            simp only [hb, hh, Bool.false_eq_true, if_false]
            cases htid : (ensureThread db st userId).2.threadId with
            | none => simpa using ⟨hmt1, hmm1⟩
            | some tid =>
              have hex1 : ∃ t ∈ ((ensureThread db st userId).1).threads,
                  t.threadId = tid :=
                ensureThread_thread_exists db st userId tid
                  (fun tid' hpy => hstate st rfl tid' hpy) htid
              have hmt2 := add_message_msgThread ((ensureThread db st userId).1)
                tid msgTgId "user" text hex1 hmt1
              have hmm2 := add_message_mapMsg ((ensureThread db st userId).1)
                tid msgTgId "user" text hmm1
              cases hblk : (((ensureThread db st userId).1).add_message tid
                  msgTgId "user" text).is_user_blocked
                  ((ensureThread db st userId).2).roleAdminUserId userId with
              | true => simpa [hblk] using ⟨hmt2, hmm2⟩
              | false =>
                cases sendOk with
                | false => simpa [hblk] using ⟨hmt2, hmm2⟩
                | true =>
                  have hex2 : ∃ t ∈ (((ensureThread db st userId).1).add_message
                      tid msgTgId "user" text).threads, t.threadId = tid :=
                    add_message_thread_exists msgTgId "user" text tid hex1
                  have hmt3 := add_message_msgThread
                    (((ensureThread db st userId).1).add_message tid msgTgId
                      "user" text)
                    tid sentId "admin" (adminCopyText tid text) hex2 hmt2
                  have hmm3 := add_message_mapMsg
                    (((ensureThread db st userId).1).add_message tid msgTgId
                      "user" text)
                    tid sentId "admin" (adminCopyText tid text) hmm2
                  have hw := add_message_self_witness
                    (((ensureThread db st userId).1).add_message tid msgTgId
                      "user" text)
                    tid sentId "admin" (adminCopyText tid text)
                  have hmm4 := insertMapping_mapMsg
                    ((((ensureThread db st userId).1).add_message tid msgTgId
                      "user" text).add_message tid sentId "admin"
                      (adminCopyText tid text))
                    sentId tid hw hmm3
                  simpa [hblk] using ⟨hmt3, hmm4⟩
  · intro hmt
    rcases hres : resolveThread mem db senderId E with ⟨o, mem'⟩
    cases o with
    | none => simpa [handle_admin_reply, hres] using hmt
    | some tid =>
      cases hfind : db.threads.find? (fun t => t.threadId == tid) with
      | none => simpa [handle_admin_reply, hres, hfind] using hmt
      | some th =>
        have hp : (th.threadId == tid) = true := by
          have h1 := List.find?_some hfind
          simpa using h1
        have hex : ∃ t ∈ db.threads, t.threadId = tid :=
          ⟨th, List.mem_of_find?_eq_some hfind, beq_iff_eq.mp hp⟩
        have hadd : ∀ stype, msgThreadConsistent
            (db.add_message tid replyTgId stype rtext) = true :=
          fun stype => add_message_msgThread db tid replyTgId stype rtext hex hmt
        simp only [handle_admin_reply, hres, hfind]
        split
        · exact hmt
        · split
          · exact hmt
          · split
            · exact hmt
            · split
              · exact hmt
              · split
                · exact hadd _
                · split
                  · exact hadd _
                  · exact hadd _

/-- C7 counterexample: on the consistent store `cexDb`, responder 99's
reply to the forwarded message (external id 50) completes successfully —
the forward and confirmation are emitted — yet the resulting store has a
mapping (the sent copy's id 71) with no corresponding `messages` row:
`handle_admin_reply` persists the reply under its own id 61 but records
the mapping under the sent copy's id 71, so the claimed invariant fails
after a successful operation. -/
theorem C7_counterexample_mapping_without_message :
    mapMsgConsistent cexDb = true
    ∧ msgThreadConsistent cexDb = true
    ∧ (handle_admin_reply cexDb [(50, 7)] 99 true 50 61 "ok" true 71).effects
        = [Effect.channelLog, Effect.forwardReply 10 71,
           Effect.confirmReplySent 7]
    ∧ mapMsgConsistent
        (handle_admin_reply cexDb [(50, 7)] 99 true 50 61 "ok" true 71).db
        = false := by
  decide

/-- C7 witness: the amended preservation statement applied on `cexDb`,
for a successful user message through `handle_message` and a successful
responder reply through `handle_admin_reply`. -/
theorem C7_store_consistency_witness :
    (msgThreadConsistent (handle_message 0 cexDb [] ⟨[], none⟩
        (some ⟨1, 99, some 7⟩) 10 60 "hi" true 70).db = true
      ∧ mapMsgConsistent (handle_message 0 cexDb [] ⟨[], none⟩
        (some ⟨1, 99, some 7⟩) 10 60 "hi" true 70).db = true)
    ∧ msgThreadConsistent (handle_admin_reply cexDb [(50, 7)] 99 true 50 61
        "ok" true 71).db = true := by
  have h := C7_store_consistency_amended 0 cexDb [] ⟨[], none⟩
    (some ⟨1, 99, some 7⟩) 10 60 "hi" true 70 99 true 50 61 "ok" true 71
  refine ⟨h.1 ?_ (by decide) (by decide), h.2 (by decide)⟩
  intro st hst tid hpy
  rw [Option.some.injEq] at hst
  subst hst
  rw [show pyTruthy (UserState.threadId ⟨1, 99, some 7⟩) = some 7 from rfl,
    Option.some.injEq] at hpy
  subst hpy
  exact ⟨⟨7, 10, 1, true, 0⟩, by decide, rfl⟩

end SenfiBot
